import Mathlib

/-!
Verification of the gamepad teleoperation front-end
(`berkeley_humanoid_lite_lowlevel/policy/gamepad.py`).

Shallow embedding: Python floats are modelled as rationals (every operation
the code performs on them — subtraction, division by a power of two, negation,
multiplication — is exact on the values of interest), optional integers model
`Optional[int]`, and the string-keyed `_states` dictionary is modelled as a
function from control-code strings to `Option Int` (`none` = key absent).
Exceptions are modelled with `Except`.
-/

namespace Gamepad

-- Constants for gamepad button and axis mappings (class `XInputEntry`).
namespace XInputEntry

def AXIS_X_L : String := "ABS_X"
def AXIS_Y_L : String := "ABS_Y"
def AXIS_TRIGGER_L : String := "ABS_Z"
def AXIS_X_R : String := "ABS_RX"
def AXIS_Y_R : String := "ABS_RY"
def AXIS_TRIGGER_R : String := "ABS_RZ"
def BTN_HAT_X : String := "ABS_HAT0X"
def BTN_HAT_Y : String := "ABS_HAT0Y"
def BTN_A : String := "BTN_SOUTH"
def BTN_B : String := "BTN_EAST"
def BTN_X : String := "BTN_NORTH"
def BTN_Y : String := "BTN_WEST"
def BTN_BUMPER_L : String := "BTN_TL"
def BTN_BUMPER_R : String := "BTN_TR"
def BTN_THUMB_L : String := "BTN_THUMBL"
def BTN_THUMB_R : String := "BTN_THUMBR"
def BTN_BACK : String := "BTN_SELECT"
def BTN_START : String := "BTN_START"

end XInputEntry

/-- The control-code string constants of `XInputEntry` (the values of
`XInputEntry.__dict__` that are control codes; the remaining dictionary
values — module name, qualified name, docstring — are never looked up by
any read in the module, so they are omitted from the model). -/
def xinputEntryCodes : List String :=
  [XInputEntry.AXIS_X_L, XInputEntry.AXIS_Y_L, XInputEntry.AXIS_TRIGGER_L,
   XInputEntry.AXIS_X_R, XInputEntry.AXIS_Y_R, XInputEntry.AXIS_TRIGGER_R,
   XInputEntry.BTN_HAT_X, XInputEntry.BTN_HAT_Y,
   XInputEntry.BTN_A, XInputEntry.BTN_B, XInputEntry.BTN_X, XInputEntry.BTN_Y,
   XInputEntry.BTN_BUMPER_L, XInputEntry.BTN_BUMPER_R,
   XInputEntry.BTN_THUMB_L, XInputEntry.BTN_THUMB_R,
   XInputEntry.BTN_BACK, XInputEntry.BTN_START]

/-- `@dataclass ControllerProfile`: profile defining how to normalize axis
values for different controller types.  The dataclass constructor merely
stores the fields; it performs no validation. -/
structure ControllerProfile where
  name : String
  center_value : ℚ
  max_range : ℚ
  invert : Bool := true
  deriving DecidableEq, Repr

/-- `ControllerProfile.normalize_axis`: normalize raw axis value; `None`
maps to `0.0`, otherwise `(raw - center_value) / max_range`, negated when
`invert` is set. -/
def ControllerProfile.normalize_axis (p : ControllerProfile) (raw_value : Option Int) : ℚ :=
  match raw_value with
  | none => 0
  | some raw =>
    let normalized : ℚ := ((raw : ℚ) - p.center_value) / p.max_range
    if p.invert then -normalized else normalized

/-- `normalize_axis` with Python float-division semantics made explicit:
dividing by zero raises `ZeroDivisionError` instead of producing a value. -/
def ControllerProfile.normalizeAxisChecked (p : ControllerProfile) (raw_value : Option Int) :
    Except String ℚ :=
  match raw_value with
  | none => Except.ok 0
  | some raw =>
    if p.max_range = 0 then Except.error "ZeroDivisionError"
    else
      let normalized : ℚ := ((raw : ℚ) - p.center_value) / p.max_range
      Except.ok (if p.invert then -normalized else normalized)

/-- `CONTROLLER_PROFILES['dualsense']`. -/
def dualsenseProfile : ControllerProfile :=
  { name := "Sony DualSense (PS5)", center_value := 128, max_range := 128, invert := true }

/-- `CONTROLLER_PROFILES['xinput']`. -/
def xinputProfile : ControllerProfile :=
  { name := "XInput/Xbox Controller", center_value := 0, max_range := 32768, invert := true }

/-- The configuration fields of `Se2Gamepad.__init__` (immutable after
construction). -/
structure GamepadConfig where
  stick_sensitivity : ℚ := 1
  dead_zone : ℚ := 1 / 100
  debug : Bool := false

/-- Default construction `Se2Gamepad()`. -/
def defaultConfig : GamepadConfig := {}

/-- The `_states` dictionary: control code → last-seen raw value,
`none` when the key is absent (`dict.get` returns `None`). -/
def RawControlState := String → Option Int

/-- `Se2Gamepad.reset`: `self._states = {key: 0 for key in
XInputEntry.__dict__.values()}` — every control code is present and maps
to raw value `0` (the state is not emptied). -/
def resetState : RawControlState :=
  fun code => if code ∈ xinputEntryCodes then some 0 else none

/-- `self._states[event.code] = event.state`: one event applied to the state. -/
def updateState (s : RawControlState) (code : String) (value : Int) : RawControlState :=
  fun c => if c = code then some value else s c

/-- `for event in events: self._states[event.code] = event.state`. -/
def applyEvents (s : RawControlState) : List (String × Int) → RawControlState
  | [] => s
  | (code, value) :: rest => applyEvents (updateState s code value) rest

/-- Python truthiness of `dict.get`: `None` and `0` are falsy, any other
integer is truthy. -/
def truthy : Option Int → Bool
  | none => false
  | some n => n ≠ 0

/-- The `self.commands` buffer. -/
structure Commands where
  velocity_x : ℚ
  velocity_y : ℚ
  velocity_yaw : ℚ
  mode_switch : ℤ
  deriving DecidableEq, Repr

/-- Initial `self.commands` value set in `__init__`. -/
def initialCommands : Commands :=
  { velocity_x := 0, velocity_y := 0, velocity_yaw := 0, mode_switch := 0 }

/-- `Se2Gamepad._normalize_and_apply_deadzone`: normalize via the profile,
zero the value when `|normalized| < dead_zone`, then scale by
`stick_sensitivity`. -/
def normalizeAndApplyDeadzone (profile : ControllerProfile) (cfg : GamepadConfig)
    (raw_value : Option Int) : ℚ :=
  let normalized := profile.normalize_axis raw_value
  let normalized := if |normalized| < cfg.dead_zone then 0 else normalized
  normalized * cfg.stick_sensitivity

/-- `Se2Gamepad._update_command_buffer`: read the three axes and six
buttons from the state and recompute the whole command buffer.  The three
mode-switch `if` statements are sequential assignments without early exit,
so a later assignment overwrites an earlier one. -/
def updateCommandBuffer (profile : ControllerProfile) (cfg : GamepadConfig)
    (s : RawControlState) : Commands :=
  let raw_velocity_x := s XInputEntry.AXIS_Y_L
  let raw_velocity_y := s XInputEntry.AXIS_X_R
  let raw_velocity_yaw := s XInputEntry.AXIS_X_L
  let velocity_x := normalizeAndApplyDeadzone profile cfg raw_velocity_x
  let velocity_y := normalizeAndApplyDeadzone profile cfg raw_velocity_y
  let velocity_yaw := normalizeAndApplyDeadzone profile cfg raw_velocity_yaw
  let mode_switch : ℤ := 0
  let mode_switch :=
    if truthy (s XInputEntry.BTN_A) && truthy (s XInputEntry.BTN_BUMPER_R) then 3
    else mode_switch
  let mode_switch :=
    if truthy (s XInputEntry.BTN_A) && truthy (s XInputEntry.BTN_BUMPER_L) then 2
    else mode_switch
  let mode_switch :=
    if truthy (s XInputEntry.BTN_X) || truthy (s XInputEntry.BTN_THUMB_L)
       || truthy (s XInputEntry.BTN_THUMB_R) then 1
    else mode_switch
  { velocity_x := velocity_x, velocity_y := velocity_y,
    velocity_yaw := velocity_yaw, mode_switch := mode_switch }

/-- `str.lower()` on one character (ASCII case mapping; every device name
and keyword the module compares is ASCII). -/
def lowerChar (c : Char) : Char :=
  if 65 ≤ c.toNat ∧ c.toNat ≤ 90 then Char.ofNat (c.toNat + 32) else c

/-- `device.name.lower()` (ASCII case mapping). -/
def strToLower (s : String) : String := String.mk (s.toList.map lowerChar)

/-- `needle in haystack` on Python strings: substring containment. -/
def containsSubAux (needle : List Char) : List Char → Bool
  | [] => needle.isEmpty
  | c :: rest => needle.isPrefixOf (c :: rest) || containsSubAux needle rest

/-- `needle in haystack` on Python strings. -/
def containsSub (needle haystack : String) : Bool :=
  containsSubAux needle.toList haystack.toList

/-- Guard of the DualSense branch of `_detect_controller` for one device
name: a DualSense/Sony marker is present and neither excluded keyword is. -/
def matchesDualsense (deviceName : String) : Bool :=
  let n := strToLower deviceName
  (containsSub "dualsense" n || containsSub "sony" n)
    && (!containsSub "motion" n && !containsSub "touchpad" n)

/-- Guard of the Xbox/XInput branch of `_detect_controller` for one device
name. -/
def matchesXbox (deviceName : String) : Bool :=
  let n := strToLower deviceName
  containsSub "xbox" n || containsSub "xinput" n

/-- `Se2Gamepad._detect_controller` over the enumerated device names:
first device matching the DualSense rule (Sony marker and not
motion/touchpad) binds with the DualSense profile; otherwise an
xbox/xinput match binds with the XInput profile; a device failing both
checks is skipped; when no device matches the result is no bound device
with the XInput profile.  The function is total: resolution never fails. -/
def detectController : List String → Option String × ControllerProfile
  | [] => (none, xinputProfile)
  | deviceName :: rest =>
    if matchesDualsense deviceName then (some deviceName, dualsenseProfile)
    else if matchesXbox deviceName then (some deviceName, xinputProfile)
    else detectController rest

/-- The loop-visible state of an `Se2Gamepad` instance: the raw control
state and the command buffer. -/
structure LoopState where
  states : RawControlState
  commands : Commands

/-- One outcome of the blocking read in `advance`: either a batch of
decoded events, or an exception raised while reading or decoding. -/
def ReadOutcome := Except String (List (String × Int))

/-- `Se2Gamepad.advance`: on a successful read, apply every event to the
state and recompute the command buffer; any exception is caught by the
`try/except` (the result type is a plain pair, not `Except` — nothing
propagates), state and commands are left untouched, and a message is
printed only when `debug` is set. -/
def advance (profile : ControllerProfile) (cfg : GamepadConfig)
    (ls : LoopState) (outcome : ReadOutcome) : LoopState × List String :=
  match outcome with
  | Except.error e =>
    (ls, if cfg.debug then ["Gamepad error: " ++ e] else [])
  | Except.ok events =>
    let states := applyEvents ls.states events
    ({ states := states, commands := updateCommandBuffer profile cfg states }, [])

/-- `Se2Gamepad.run_forever`, driven by a finite trace of read outcomes:
each cycle calls `advance`; the loop never terminates early because of an
error (no escalation, no backoff). -/
def runForever (profile : ControllerProfile) (cfg : GamepadConfig)
    (ls : LoopState) : List ReadOutcome → LoopState × List String
  | [] => (ls, [])
  | outcome :: rest =>
    let step := advance profile cfg ls outcome
    let result := runForever profile cfg step.1 rest
    (result.1, step.2 ++ result.2)

/-- Modelled from the spec: the construction-time check `§7` asks for —
"Invalid profile constants (`max_range == 0`) ... should be rejected at
profile-construction time (fatal/construction-time check)".  No such
check exists in `gamepad.py`; this definition follows the spec's words
for comparison with the actual dataclass constructor. -/
def mkProfileCheckedSpec (name : String) (center_value max_range : ℚ)
    (invert : Bool) : Option ControllerProfile :=
  if max_range = 0 then none
  else some { name := name, center_value := center_value,
              max_range := max_range, invert := invert }

/-- The actual dataclass construction of `ControllerProfile`, wrapped in
`Except` to express that construction could in principle fail: the
generated `__init__` only stores the fields, so it always succeeds. -/
def mkControllerProfile (name : String) (center_value max_range : ℚ)
    (invert : Bool) : Except String ControllerProfile :=
  Except.ok { name := name, center_value := center_value,
              max_range := max_range, invert := invert }

/-- The nine control codes `_update_command_buffer` reads. -/
def relevantCodes : List String :=
  [XInputEntry.AXIS_Y_L, XInputEntry.AXIS_X_R, XInputEntry.AXIS_X_L,
   XInputEntry.BTN_A, XInputEntry.BTN_X,
   XInputEntry.BTN_BUMPER_L, XInputEntry.BTN_BUMPER_R,
   XInputEntry.BTN_THUMB_L, XInputEntry.BTN_THUMB_R]

end Gamepad

namespace Gamepad

/-- A sample whose normalized value is zero passes the dead zone and the
sensitivity scaling as exactly zero. -/
lemma normalizeAndApplyDeadzone_eq_zero (profile : ControllerProfile)
    (cfg : GamepadConfig) (raw : Option Int)
    (h : profile.normalize_axis raw = 0) :
    normalizeAndApplyDeadzone profile cfg raw = 0 := by
  simp only [normalizeAndApplyDeadzone, h]
  split <;> simp

/-- C2: normalize of a missing sample is exactly 0; normalize of an integer
raw value is (raw - center_value) / max_range, negated when invert is true;
and normalize at the center value is exactly 0 (for a profile whose
max_range is nonzero, so that the Python division is defined). -/
theorem normalize_axis_spec (p : ControllerProfile) (raw c : ℤ)
    (hm : p.max_range ≠ 0) (hc : (c : ℚ) = p.center_value) :
    p.normalize_axis none = 0 ∧
    p.normalize_axis (some raw) =
      (if p.invert then -(((raw : ℚ) - p.center_value) / p.max_range)
       else ((raw : ℚ) - p.center_value) / p.max_range) ∧
    p.normalize_axis (some c) = 0 := by
  refine ⟨rfl, rfl, ?_⟩
  simp [ControllerProfile.normalize_axis, hc]

/-- Witness for C2 at the DualSense profile, raw value 200, center 128. -/
theorem normalize_axis_spec_witness :
    dualsenseProfile.max_range ≠ 0 ∧
    ((128 : ℤ) : ℚ) = dualsenseProfile.center_value ∧
    (dualsenseProfile.normalize_axis none = 0 ∧
     dualsenseProfile.normalize_axis (some 200) =
       (if dualsenseProfile.invert
        then -((((200 : ℤ) : ℚ) - dualsenseProfile.center_value) / dualsenseProfile.max_range)
        else (((200 : ℤ) : ℚ) - dualsenseProfile.center_value) / dualsenseProfile.max_range) ∧
     dualsenseProfile.normalize_axis (some 128) = 0) :=
  ⟨by norm_num [dualsenseProfile], by norm_num [dualsenseProfile],
   normalize_axis_spec dualsenseProfile 200 128
     (by norm_num [dualsenseProfile]) (by norm_num [dualsenseProfile])⟩

/-- C3: if the normalized value is inside the dead zone the per-axis output
is exactly 0; otherwise it is the normalized value times the stick
sensitivity, not zeroed. -/
theorem deadzone_spec (profile : ControllerProfile) (cfg : GamepadConfig)
    (raw : Option Int) :
    (|profile.normalize_axis raw| < cfg.dead_zone →
       normalizeAndApplyDeadzone profile cfg raw = 0) ∧
    (cfg.dead_zone ≤ |profile.normalize_axis raw| →
       normalizeAndApplyDeadzone profile cfg raw =
         profile.normalize_axis raw * cfg.stick_sensitivity) := by
  constructor
  · intro h
    simp only [normalizeAndApplyDeadzone]
    rw [if_pos h, zero_mul]
  · intro h
    simp only [normalizeAndApplyDeadzone]
    rw [if_neg (not_lt.mpr h)]

/-- Witness for C3: raw 16 on XInput is inside the default dead zone and
produces 0; raw 16384 is outside it and produces normalized times
sensitivity. -/
theorem deadzone_spec_witness :
    (|xinputProfile.normalize_axis (some 16)| < defaultConfig.dead_zone ∧
     normalizeAndApplyDeadzone xinputProfile defaultConfig (some 16) = 0) ∧
    (defaultConfig.dead_zone ≤ |xinputProfile.normalize_axis (some 16384)| ∧
     normalizeAndApplyDeadzone xinputProfile defaultConfig (some 16384) =
       xinputProfile.normalize_axis (some 16384) * defaultConfig.stick_sensitivity) :=
  ⟨⟨by norm_num [xinputProfile, ControllerProfile.normalize_axis, defaultConfig, abs_lt],
    (deadzone_spec xinputProfile defaultConfig (some 16)).1
      (by norm_num [xinputProfile, ControllerProfile.normalize_axis, defaultConfig, abs_lt])⟩,
   ⟨by norm_num [xinputProfile, ControllerProfile.normalize_axis, defaultConfig, le_abs],
    (deadzone_spec xinputProfile defaultConfig (some 16384)).2
      (by norm_num [xinputProfile, ControllerProfile.normalize_axis, defaultConfig, le_abs])⟩⟩

/-- C6: on the device list ["Sony DualSense Motion Sensor", "Xbox Wireless
Controller"] the resolver skips the Sony entry (excluded keyword "motion")
and binds the Xbox entry with the XInput profile. -/
theorem resolver_precedence :
    detectController ["Sony DualSense Motion Sensor", "Xbox Wireless Controller"] =
      (some "Xbox Wireless Controller", xinputProfile) := by
  decide

/-- C7: an empty device list, and more generally any list in which no
device satisfies either detection rule, resolves to no bound device with
the XInput profile; the resolver is a total function, so resolution never
fails. -/
theorem default_fallback (names : List String)
    (h : ∀ name ∈ names, matchesDualsense name = false ∧ matchesXbox name = false) :
    detectController [] = (none, xinputProfile) ∧
    detectController names = (none, xinputProfile) := by
  refine ⟨rfl, ?_⟩
  induction names with
  | nil => rfl
  | cons n rest ih =>
    have hn := h n (List.mem_cons_self n rest)
    rw [detectController, if_neg (by simp [hn.1]), if_neg (by simp [hn.2])]
    exact ih fun m hm => h m (List.mem_cons_of_mem n hm)

/-- Witness for C7 on a device list with a single non-matching name. -/
theorem default_fallback_witness :
    detectController [] = (none, xinputProfile) ∧
    detectController ["Logitech Keyboard"] = (none, xinputProfile) :=
  default_fallback ["Logitech Keyboard"] (by decide)

/-- C9: an error raised while reading or decoding events is caught inside
the cycle (advance returns a plain value, so nothing propagates), leaves
the state and the command buffer untouched, is logged exactly when debug
is set, and the loop proceeds to the next iteration unchanged — no
backoff, no escalation, no crash. -/
theorem polling_error_tolerance (profile : ControllerProfile) (cfg : GamepadConfig)
    (ls : LoopState) (e : String) (rest : List ReadOutcome) :
    advance profile cfg ls (Except.error e) =
      (ls, if cfg.debug then ["Gamepad error: " ++ e] else []) ∧
    runForever profile cfg ls (Except.error e :: rest) =
      ((runForever profile cfg ls rest).1,
       (if cfg.debug then ["Gamepad error: " ++ e] else []) ++
         (runForever profile cfg ls rest).2) := by
  exact ⟨rfl, rfl⟩

end Gamepad

namespace Gamepad

/-- C1 counterexample: with button A, the left bumper, and the right bumper
all pressed simultaneously (and nothing else), the computed mode_switch is
2, not 3: the A+left-bumper check is evaluated after the A+right-bumper
check and overwrites its assignment. -/
theorem mode_precedence_cex :
    (updateCommandBuffer xinputProfile defaultConfig
       (fun c => if c = "BTN_SOUTH" ∨ c = "BTN_TL" ∨ c = "BTN_TR"
                 then some 1 else none)).mode_switch = 2 ∧
    ¬ (updateCommandBuffer xinputProfile defaultConfig
       (fun c => if c = "BTN_SOUTH" ∨ c = "BTN_TL" ∨ c = "BTN_TR"
                 then some 1 else none)).mode_switch = 3 := by
  constructor <;> decide

/-- C1 (amended): with A and both bumpers pressed and no idle button held,
mode_switch is 2 (the init check runs after the activate check, so init
overrides activate); if X or a thumbstick press is held, mode_switch is 1;
with only A and the left bumper pressed, mode_switch is 2; with none of
the six buttons pressed, mode_switch is 0. -/
theorem mode_precedence (profile : ControllerProfile) (cfg : GamepadConfig)
    (s : RawControlState) :
    (truthy (s XInputEntry.BTN_A) = true →
     truthy (s XInputEntry.BTN_BUMPER_L) = true →
     truthy (s XInputEntry.BTN_BUMPER_R) = true →
     truthy (s XInputEntry.BTN_X) = false →
     truthy (s XInputEntry.BTN_THUMB_L) = false →
     truthy (s XInputEntry.BTN_THUMB_R) = false →
     (updateCommandBuffer profile cfg s).mode_switch = 2) ∧
    (truthy (s XInputEntry.BTN_X) = true ∨ truthy (s XInputEntry.BTN_THUMB_L) = true ∨
       truthy (s XInputEntry.BTN_THUMB_R) = true →
     (updateCommandBuffer profile cfg s).mode_switch = 1) ∧
    (truthy (s XInputEntry.BTN_A) = true →
     truthy (s XInputEntry.BTN_BUMPER_L) = true →
     truthy (s XInputEntry.BTN_BUMPER_R) = false →
     truthy (s XInputEntry.BTN_X) = false →
     truthy (s XInputEntry.BTN_THUMB_L) = false →
     truthy (s XInputEntry.BTN_THUMB_R) = false →
     (updateCommandBuffer profile cfg s).mode_switch = 2) ∧
    (truthy (s XInputEntry.BTN_A) = false →
     truthy (s XInputEntry.BTN_X) = false →
     truthy (s XInputEntry.BTN_BUMPER_L) = false →
     truthy (s XInputEntry.BTN_BUMPER_R) = false →
     truthy (s XInputEntry.BTN_THUMB_L) = false →
     truthy (s XInputEntry.BTN_THUMB_R) = false →
     (updateCommandBuffer profile cfg s).mode_switch = 0) := by
  refine ⟨?_, ?_, ?_, ?_⟩
  · intro h1 h2 h3 h4 h5 h6
    simp [updateCommandBuffer, h1, h2, h3, h4, h5, h6]
  · intro h
    rcases h with h | h | h <;> simp [updateCommandBuffer, h]
  · intro h1 h2 h3 h4 h5 h6
    simp [updateCommandBuffer, h1, h2, h3, h4, h5, h6]
  · intro h1 h2 h3 h4 h5 h6
    simp [updateCommandBuffer, h1, h2, h3, h4, h5, h6]

/-- Witness for C1 (amended) at four concrete states: A with both bumpers,
X alone, A with the left bumper alone, and no button at all. -/
theorem mode_precedence_witness :
    (updateCommandBuffer xinputProfile defaultConfig
       (fun c => if c = "BTN_SOUTH" ∨ c = "BTN_TL" ∨ c = "BTN_TR"
                 then some 1 else none)).mode_switch = 2 ∧
    (updateCommandBuffer xinputProfile defaultConfig
       (fun c => if c = "BTN_NORTH" then some 1 else none)).mode_switch = 1 ∧
    (updateCommandBuffer xinputProfile defaultConfig
       (fun c => if c = "BTN_SOUTH" ∨ c = "BTN_TL" then some 1 else none)).mode_switch = 2 ∧
    (updateCommandBuffer xinputProfile defaultConfig
       (fun _ => none)).mode_switch = 0 :=
  ⟨(mode_precedence xinputProfile defaultConfig _).1
     (by decide) (by decide) (by decide) (by decide) (by decide) (by decide),
   (mode_precedence xinputProfile defaultConfig _).2.1 (Or.inl (by decide)),
   (mode_precedence xinputProfile defaultConfig _).2.2.1
     (by decide) (by decide) (by decide) (by decide) (by decide) (by decide),
   (mode_precedence xinputProfile defaultConfig _).2.2.2
     (by decide) (by decide) (by decide) (by decide) (by decide) (by decide)⟩

/-- C4 counterexample: immediately after reset no event has been observed,
yet under the DualSense profile the computed velocity_x is 1, not 0: reset
stores raw value 0 for every code, the codes are therefore not missing,
and raw 0 is a full deflection away from the DualSense center 128. -/
theorem no_signal_cex :
    (updateCommandBuffer dualsenseProfile defaultConfig resetState).velocity_x = 1 ∧
    (updateCommandBuffer dualsenseProfile defaultConfig resetState).velocity_x ≠ 0 := by
  have e1 : resetState XInputEntry.AXIS_Y_L = some 0 := by decide
  constructor <;>
    norm_num [updateCommandBuffer, e1, normalizeAndApplyDeadzone,
      ControllerProfile.normalize_axis, dualsenseProfile, defaultConfig, abs_lt]

/-- C4 (amended): a control code actually absent from the raw state is
treated as no signal — the per-axis output is exactly 0 under every
profile, and each velocity is 0 when its axis code is absent; after reset
the codes are present with raw value 0, and the velocities are all 0 under
the XInput profile (whose center is the raw value 0 that reset stores). -/
theorem no_signal (profile : ControllerProfile) (cfg : GamepadConfig) (s : RawControlState)
    (hx : s XInputEntry.AXIS_Y_L = none) (hy : s XInputEntry.AXIS_X_R = none)
    (hyaw : s XInputEntry.AXIS_X_L = none) :
    normalizeAndApplyDeadzone profile cfg none = 0 ∧
    (updateCommandBuffer profile cfg s).velocity_x = 0 ∧
    (updateCommandBuffer profile cfg s).velocity_y = 0 ∧
    (updateCommandBuffer profile cfg s).velocity_yaw = 0 ∧
    (updateCommandBuffer xinputProfile cfg resetState).velocity_x = 0 ∧
    (updateCommandBuffer xinputProfile cfg resetState).velocity_y = 0 ∧
    (updateCommandBuffer xinputProfile cfg resetState).velocity_yaw = 0 := by
  have h0 : normalizeAndApplyDeadzone profile cfg none = 0 :=
    normalizeAndApplyDeadzone_eq_zero profile cfg none rfl
  have hx0 : normalizeAndApplyDeadzone xinputProfile cfg (some 0) = 0 :=
    normalizeAndApplyDeadzone_eq_zero xinputProfile cfg (some 0)
      (by norm_num [ControllerProfile.normalize_axis, xinputProfile])
  have e1 : resetState XInputEntry.AXIS_Y_L = some 0 := by decide
  have e2 : resetState XInputEntry.AXIS_X_R = some 0 := by decide
  have e3 : resetState XInputEntry.AXIS_X_L = some 0 := by decide
  refine ⟨h0, ?_, ?_, ?_, ?_, ?_, ?_⟩
  · simp [updateCommandBuffer, hx, h0]
  · simp [updateCommandBuffer, hy, h0]
  · simp [updateCommandBuffer, hyaw, h0]
  · simp [updateCommandBuffer, e1, hx0]
  · simp [updateCommandBuffer, e2, hx0]
  · simp [updateCommandBuffer, e3, hx0]

/-- Witness for C4 (amended) at the DualSense profile and the empty state. -/
theorem no_signal_witness :
    normalizeAndApplyDeadzone dualsenseProfile defaultConfig none = 0 ∧
    (updateCommandBuffer dualsenseProfile defaultConfig (fun _ => none)).velocity_x = 0 ∧
    (updateCommandBuffer dualsenseProfile defaultConfig (fun _ => none)).velocity_y = 0 ∧
    (updateCommandBuffer dualsenseProfile defaultConfig (fun _ => none)).velocity_yaw = 0 ∧
    (updateCommandBuffer xinputProfile defaultConfig resetState).velocity_x = 0 ∧
    (updateCommandBuffer xinputProfile defaultConfig resetState).velocity_y = 0 ∧
    (updateCommandBuffer xinputProfile defaultConfig resetState).velocity_yaw = 0 :=
  no_signal dualsenseProfile defaultConfig (fun _ => none) rfl rfl rfl

end Gamepad

namespace Gamepad

/-- C5 counterexample: raw sample 65536 on the left-stick Y axis under the
XInput profile (default sensitivity 1) yields velocity_x = -2, outside
[-stick_sensitivity, stick_sensitivity]: the pipeline applies no clamp. -/
theorem range_bound_cex :
    (updateCommandBuffer xinputProfile defaultConfig
       (fun c => if c = "ABS_Y" then some 65536 else none)).velocity_x = -2 ∧
    ¬ |(updateCommandBuffer xinputProfile defaultConfig
         (fun c => if c = "ABS_Y" then some 65536 else none)).velocity_x| ≤
        defaultConfig.stick_sensitivity := by
  have h : (updateCommandBuffer xinputProfile defaultConfig
      (fun c => if c = "ABS_Y" then some 65536 else none)).velocity_x = -2 := by
    norm_num [updateCommandBuffer, normalizeAndApplyDeadzone,
      ControllerProfile.normalize_axis, xinputProfile, defaultConfig, abs_lt,
      XInputEntry.AXIS_Y_L, XInputEntry.AXIS_X_R, XInputEntry.AXIS_X_L]
  refine ⟨h, ?_⟩
  rw [h]
  norm_num [defaultConfig, abs_le]

/-- A per-axis sample whose raw value deviates from the profile center by
at most max_range produces an output bounded by the stick sensitivity. -/
lemma normalizeAndApplyDeadzone_bound (profile : ControllerProfile) (cfg : GamepadConfig)
    (raw : Option Int) (hs : 0 ≤ cfg.stick_sensitivity) (hm : 0 < profile.max_range)
    (h : ∀ r : ℤ, raw = some r → |(r : ℚ) - profile.center_value| ≤ profile.max_range) :
    |normalizeAndApplyDeadzone profile cfg raw| ≤ cfg.stick_sensitivity := by
  have hn : |profile.normalize_axis raw| ≤ 1 := by
    cases raw with
    | none => simp [ControllerProfile.normalize_axis]
    | some r =>
      have hq : |((r : ℚ) - profile.center_value) / profile.max_range| ≤ 1 := by
        rw [abs_div, abs_of_pos hm]
        exact (div_le_one hm).mpr ((h r rfl).trans (le_refl _))
      simp only [ControllerProfile.normalize_axis]
      split
      · rwa [abs_neg]
      · exact hq
  simp only [normalizeAndApplyDeadzone]
  split
  · rw [zero_mul, abs_zero]
    exact hs
  · calc |profile.normalize_axis raw * cfg.stick_sensitivity|
        = |profile.normalize_axis raw| * |cfg.stick_sensitivity| := abs_mul _ _
      _ = |profile.normalize_axis raw| * cfg.stick_sensitivity := by rw [abs_of_nonneg hs]
      _ ≤ 1 * cfg.stick_sensitivity := mul_le_mul_of_nonneg_right hn hs
      _ = cfg.stick_sensitivity := one_mul _

/-- C5 (amended): with a nonnegative stick sensitivity and a profile with
positive max_range, if every raw value stored in the state deviates from
the profile center by at most max_range (raw input within the calibrated
device range), then each computed velocity lies in [-stick_sensitivity,
stick_sensitivity]; without that premise no bound holds, since the
pipeline applies no clamping. -/
theorem range_bound (profile : ControllerProfile) (cfg : GamepadConfig) (s : RawControlState)
    (hs : 0 ≤ cfg.stick_sensitivity) (hm : 0 < profile.max_range)
    (h : ∀ (code : String) (r : ℤ), s code = some r →
           |(r : ℚ) - profile.center_value| ≤ profile.max_range) :
    |(updateCommandBuffer profile cfg s).velocity_x| ≤ cfg.stick_sensitivity ∧
    |(updateCommandBuffer profile cfg s).velocity_y| ≤ cfg.stick_sensitivity ∧
    |(updateCommandBuffer profile cfg s).velocity_yaw| ≤ cfg.stick_sensitivity := by
  refine ⟨?_, ?_, ?_⟩ <;> simp only [updateCommandBuffer] <;>
    exact normalizeAndApplyDeadzone_bound profile cfg _ hs hm (fun r hr => h _ r hr)

/-- Witness for C5 (amended) at the XInput profile and the reset state. -/
theorem range_bound_witness :
    |(updateCommandBuffer xinputProfile defaultConfig resetState).velocity_x| ≤
      defaultConfig.stick_sensitivity ∧
    |(updateCommandBuffer xinputProfile defaultConfig resetState).velocity_y| ≤
      defaultConfig.stick_sensitivity ∧
    |(updateCommandBuffer xinputProfile defaultConfig resetState).velocity_yaw| ≤
      defaultConfig.stick_sensitivity :=
  range_bound xinputProfile defaultConfig resetState
    (by norm_num [defaultConfig]) (by norm_num [xinputProfile])
    (by
      intro code r h
      simp only [resetState] at h
      by_cases hc : code ∈ xinputEntryCodes
      · rw [if_pos hc] at h
        cases h
        norm_num [xinputProfile]
      · rw [if_neg hc] at h
        exact absurd h (by simp))

/-- C8 counterexample: the dataclass constructor accepts max_range = 0 and
returns the profile; the construction-time rejection the spec asks for
(modelled by mkProfileCheckedSpec) would refuse it. -/
theorem profile_construction_cex :
    mkControllerProfile "invalid" 0 0 true =
      Except.ok { name := "invalid", center_value := 0, max_range := 0, invert := true } ∧
    mkProfileCheckedSpec "invalid" 0 0 true = none := by
  constructor
  · rfl
  · simp [mkProfileCheckedSpec]

/-- C8 (amended): constructing a ControllerProfile with max_range = 0 is
accepted — the dataclass constructor performs no validation — and the
invalid constant then causes a division-by-zero error at normalization
time, as soon as normalize_axis is applied to a present raw sample. -/
theorem profile_construction (name : String) (c : ℚ) (inv : Bool) (raw : ℤ) :
    (∃ p : ControllerProfile,
       mkControllerProfile name c 0 inv = Except.ok p ∧ p.max_range = 0) ∧
    (∀ p : ControllerProfile, mkControllerProfile name c 0 inv = Except.ok p →
       p.normalizeAxisChecked (some raw) = Except.error "ZeroDivisionError") := by
  constructor
  · exact ⟨_, rfl, rfl⟩
  · intro p hp
    have : p = { name := name, center_value := c, max_range := 0, invert := inv } := by
      simpa [mkControllerProfile] using hp.symm
    subst this
    simp [ControllerProfile.normalizeAxisChecked]

/-- Witness for C8 (amended): the accepted zero-range profile errors on the
raw sample 5. -/
theorem profile_construction_witness :
    ({ name := "bad", center_value := 0, max_range := 0, invert := true } :
        ControllerProfile).normalizeAxisChecked (some 5) =
      Except.error "ZeroDivisionError" :=
  (profile_construction "bad" 0 true 5).2 _ rfl

/-- Two states agreeing on the nine control codes the command computation
reads produce identical command buffers. -/
lemma updateCommandBuffer_congr (profile : ControllerProfile) (cfg : GamepadConfig)
    (s1 s2 : RawControlState) (h : ∀ c ∈ relevantCodes, s1 c = s2 c) :
    updateCommandBuffer profile cfg s1 = updateCommandBuffer profile cfg s2 := by
  have h1 := h XInputEntry.AXIS_Y_L (by decide)
  have h2 := h XInputEntry.AXIS_X_R (by decide)
  have h3 := h XInputEntry.AXIS_X_L (by decide)
  have h4 := h XInputEntry.BTN_A (by decide)
  have h5 := h XInputEntry.BTN_X (by decide)
  have h6 := h XInputEntry.BTN_BUMPER_L (by decide)
  have h7 := h XInputEntry.BTN_BUMPER_R (by decide)
  have h8 := h XInputEntry.BTN_THUMB_L (by decide)
  have h9 := h XInputEntry.BTN_THUMB_R (by decide)
  simp only [updateCommandBuffer, h1, h2, h3, h4, h5, h6, h7, h8, h9]

/-- C10: applying an event whose code is none of the three axis codes and
none of the six button codes read by the command computation, then
recomputing, yields exactly the same velocity_x, velocity_y, velocity_yaw,
and mode_switch as recomputing without it. -/
theorem irrelevant_event (profile : ControllerProfile) (cfg : GamepadConfig)
    (s : RawControlState) (code : String) (v : Int)
    (h : code ∉ relevantCodes) :
    updateCommandBuffer profile cfg (updateState s code v) =
      updateCommandBuffer profile cfg s := by
  apply updateCommandBuffer_congr
  intro c hc
  simp only [updateState]
  rw [if_neg]
  intro hcc
  exact h (hcc ▸ hc)

/-- Witness for C10: a BTN_EAST (button B) press does not change the
command buffer computed from the reset state. -/
theorem irrelevant_event_witness :
    "BTN_EAST" ∉ relevantCodes ∧
    updateCommandBuffer xinputProfile defaultConfig
        (updateState resetState "BTN_EAST" 1) =
      updateCommandBuffer xinputProfile defaultConfig resetState :=
  ⟨by decide,
   irrelevant_event xinputProfile defaultConfig resetState "BTN_EAST" 1 (by decide)⟩

end Gamepad
